import Mathlib

/-!
Shallow embedding of the dispatch logic of src/telebot.py.

The embedding models the observable behaviour of TelegramBot.send_message
and TelegramBot.send_files as trace-producing functions.  Remote calls,
sleeps and log lines become events in a trace; a Python exception that
escapes the method becomes an Except.error result, while a normal return
becomes Except.ok.  The outcome of each remote call is supplied by an
oracle function (for send_message, per attempt number; for send_files,
per group index and attempt number): none means the call succeeds, some e
means the call raises the transport error e.
-/

namespace Telebot

/-- Configuration fields of BotConfig that the dispatch logic reads
(api credentials are only used by the transport bootstrap and are not
part of the dispatch behaviour). -/
structure BotConfig where
  chat_id : Int
  topic_id : Option Int
  max_files_per_group : Nat
  retry_attempts : Nat
  retry_delay : Nat
  dry_run : Bool
deriving Repr, DecidableEq

/-- Observable events of a run: remote transport calls, sleeps and log
lines. clientSendMessage and clientSendFile carry the keyword arguments
built in the source (entity, message or file list plus caption, and the
optional reply_to). -/
inductive Event where
  | clientSendMessage (entity : Int) (message : String) (replyTo : Option Int)
  | clientSendFile (entity : Int) (file : List String) (caption : String)
      (replyTo : Option Int)
  | sleep (seconds : Nat)
  | logDebug (s : String)
  | logInformation (s : String)
  | logWarning (s : String)
  | logError (s : String)
deriving Repr, DecidableEq

/-- Helper building a BotConfig from positional values (chat id, topic
id, max files per group, retry attempts, retry delay, dry run). -/
def mkCfg (chat : Int) (topic : Option Int) (m attempts delay : Nat)
    (dry : Bool) : BotConfig :=
  { chat_id := chat, topic_id := topic, max_files_per_group := m,
    retry_attempts := attempts, retry_delay := delay, dry_run := dry }

/-- Python truthiness of an Optional int: None and 0 are falsy,
any other int is truthy.  This is the test performed by
`if self.config.topic_id:` in the source. -/
def truthyOptInt : Option Int → Bool
  | none => false
  | some n => n != 0

/-- The reply_to keyword argument: included exactly when
`self.config.topic_id` is truthy (source lines 150-151 and 194-195). -/
def replyToArg (cfg : BotConfig) : Option Int :=
  if truthyOptInt cfg.topic_id then cfg.topic_id else none

/-- The attempt loop of send_message (source lines 143-162):
`for attempt in range(1, attempts + 1)`.  remaining counts the loop
iterations still to run, attempt is the current 1-based attempt number;
remaining = 0 means the range is exhausted and the loop falls through
(only reachable when attempts = 0).  The oracle op gives the outcome of
the transport call at each attempt number. -/
def sendMessageAttempts (cfg : BotConfig) (message : String)
    (op : Nat → Option String) (attempt : Nat) :
    Nat → List Event × Except String Unit
  | 0 => ([], Except.ok ())
  | remaining + 1 =>
    let callEv := Event.clientSendMessage cfg.chat_id message (replyToArg cfg)
    match op attempt with
    | none =>
      ([callEv, Event.logInformation
          ("Message sent successfully to chat ID: " ++ toString cfg.chat_id)],
        Except.ok ())
    | some e =>
      if remaining = 0 then
        ([callEv, Event.logError
            ("Failed to send message after " ++ toString attempt
              ++ " attempts: " ++ e)],
          Except.error e)
      else
        let rest := sendMessageAttempts cfg message op (attempt + 1) remaining
        (callEv :: Event.logWarning
            ("Attempt " ++ toString attempt ++ " failed: " ++ e
              ++ ". Retrying in " ++ toString cfg.retry_delay ++ " seconds...")
          :: Event.sleep cfg.retry_delay :: rest.1, rest.2)

/-- TelegramBot.send_message (source lines 135-162).  In dry-run mode it
only logs; otherwise it runs the attempt loop with
attempts = retry_attempts if retry else 1. -/
def send_message (cfg : BotConfig) (message : String) (retry : Bool)
    (op : Nat → Option String) : List Event × Except String Unit :=
  if cfg.dry_run then
    ([Event.logInformation
        ("DRY RUN: Would send message to chat ID " ++ toString cfg.chat_id)],
      Except.ok ())
  else
    sendMessageAttempts cfg message op 1
      (if retry then cfg.retry_attempts else 1)

/-- The group comprehension of send_files (source lines 176-177):
`[files[i:i + m] for i in range(0, len(files), m)]`.  With m = 0 Python
raises ValueError from range; otherwise the indices are 0, m, 2m, ...
below len(files), so there are ceil(len/m) groups and group number k
(0-based) is the slice files[k*m : k*m + m]. -/
def file_groups (files : List String) (m : Nat) :
    Except String (List (List String)) :=
  if m = 0 then Except.error "range() arg 3 must not be zero"
  else Except.ok
    (((List.range ((files.length + m - 1) / m)).map
      (fun k => (files.drop (k * m)).take m)))

/-- The caption built for each group (source line 183):
`f"{message}\n\n(Group {group_idx}/{total_groups})"`. -/
def groupCaption (message : String) (groupIdx totalGroups : Nat) : String :=
  message ++ "\n\n(Group " ++ toString groupIdx ++ "/"
    ++ toString totalGroups ++ ")"

/-- The inner attempt loop of send_files for one group (source lines
186-209).  On success it logs, then inserts the pacing sleep when the
group is not the last, then breaks.  On failure at the last attempt it
raises (Except.error); earlier failures log, sleep for the retry delay
and continue. -/
def sendFileGroupAttempts (cfg : BotConfig) (fileGroup : List String)
    (caption : String) (op : Nat → Nat → Option String)
    (groupIdx totalGroups : Nat) (attempt : Nat) :
    Nat → List Event × Except String Unit
  | 0 => ([], Except.ok ())
  | remaining + 1 =>
    let callEv := Event.clientSendFile cfg.chat_id fileGroup caption
      (replyToArg cfg)
    match op groupIdx attempt with
    | none =>
      (callEv :: Event.logInformation
          ("File group " ++ toString groupIdx ++ "/" ++ toString totalGroups
            ++ " sent successfully")
        :: (if groupIdx < totalGroups then [Event.sleep 1] else []),
        Except.ok ())
    | some e =>
      if remaining = 0 then
        ([callEv, Event.logError
            ("Failed to send file group " ++ toString groupIdx ++ " after "
              ++ toString attempt ++ " attempts: " ++ e)],
          Except.error e)
      else
        let rest := sendFileGroupAttempts cfg fileGroup caption op groupIdx
          totalGroups (attempt + 1) remaining
        (callEv :: Event.logWarning
            ("Attempt " ++ toString attempt ++ " for group "
              ++ toString groupIdx ++ " failed: " ++ e ++ ". Retrying in "
              ++ toString cfg.retry_delay ++ " seconds...")
          :: Event.sleep cfg.retry_delay :: rest.1, rest.2)

/-- The outer group loop of send_files (source lines 182-209):
`for group_idx, file_group in enumerate(file_groups, 1)`.  An exception
raised by a group aborts the whole loop. -/
def sendFilesGroups (cfg : BotConfig) (message : String) (retry : Bool)
    (op : Nat → Nat → Option String) (totalGroups : Nat) :
    List (List String) → Nat → List Event × Except String Unit
  | [], _ => ([], Except.ok ())
  | g :: rest, groupIdx =>
    let caption := groupCaption message groupIdx totalGroups
    let cur := sendFileGroupAttempts cfg g caption op groupIdx totalGroups 1
      (if retry then cfg.retry_attempts else 1)
    match cur.2 with
    | Except.error e => (cur.1, Except.error e)
    | Except.ok _ =>
      let after := sendFilesGroups cfg message retry op totalGroups rest
        (groupIdx + 1)
      (cur.1 ++ after.1, after.2)

/-- TelegramBot.send_files (source lines 164-209).  Empty file list:
warn and return.  Dry run: log and return (before any grouping).
Otherwise group the files, log the plan and run the group loop. -/
def send_files (cfg : BotConfig) (files : List String) (message : String)
    (retry : Bool) (op : Nat → Nat → Option String) :
    List Event × Except String Unit :=
  if files.isEmpty then
    ([Event.logWarning "No files to send"], Except.ok ())
  else if cfg.dry_run then
    ([Event.logInformation
        ("DRY RUN: Would send " ++ toString files.length
          ++ " files to chat ID " ++ toString cfg.chat_id),
      Event.logInformation "Files: (names elided)"],
      Except.ok ())
  else
    match file_groups files cfg.max_files_per_group with
    | Except.error e => ([], Except.error e)
    | Except.ok groups =>
      let totalGroups := groups.length
      let run := sendFilesGroups cfg message retry op totalGroups groups 1
      (Event.logInformation
          ("Sending " ++ toString files.length ++ " files in "
            ++ toString totalGroups ++ " groups")
        :: run.1, run.2)

/-- Count of transport call events (send-message or send-file) in a
trace. -/
def clientCallCount (t : List Event) : Nat :=
  t.countP fun e => match e with
    | Event.clientSendMessage _ _ _ => true
    | Event.clientSendFile _ _ _ _ => true
    | _ => false

/-- Count of send-file call events whose file list is exactly fs. -/
def fileCallCountFor (t : List Event) (fs : List String) : Nat :=
  t.countP fun e => match e with
    | Event.clientSendFile _ f _ _ => f == fs
    | _ => false

/-- Count of sleep events in a trace. -/
def sleepCount (t : List Event) : Nat :=
  t.countP fun e => match e with
    | Event.sleep _ => true
    | _ => false

/-- Whether an event is a send-file transport call. -/
def isSendFileEvent : Event → Bool
  | Event.clientSendFile _ _ _ _ => true
  | _ => false

/-- The subsequence of send-file transport calls of a trace. -/
def sendFileEvents (t : List Event) : List Event :=
  t.filter isSendFileEvent

/-- Python truthiness of an optional string: absent and the empty
string are falsy. -/
def truthyOptStr : Option String → Bool
  | none => false
  | some s => s != ""

/-- The parsed configuration data inspected by the required-fields
validation of parse_arguments; each required field may be absent (none)
or present with a value.  The retry field is carried along to record
that the validation never reads it. -/
structure ConfigData where
  api_id : Option String
  api_hash : Option String
  bot_token : Option String
  chat_id : Option Int
  message : Option String
  retry : Option Nat
deriving Repr, DecidableEq

/-- Helper building a ConfigData from positional values (api id, api
hash, bot token, chat id, message, retry). -/
def mkCd (a b t : Option String) (c : Option Int) (msg : Option String)
    (r : Option Nat) : ConfigData :=
  { api_id := a, api_hash := b, bot_token := t, chat_id := c,
    message := msg, retry := r }

/-- The required-fields check of parse_arguments (source lines 326-327):
`[field for field in required_fields if field not in config_data or not
config_data[field]]` with required_fields = [api_id, api_hash, bot_token,
chat_id, message]. -/
def missing_fields (cd : ConfigData) : List String :=
  (if truthyOptStr cd.api_id then [] else ["api_id"]) ++
  (if truthyOptStr cd.api_hash then [] else ["api_hash"]) ++
  (if truthyOptStr cd.bot_token then [] else ["bot_token"]) ++
  (if truthyOptInt cd.chat_id then [] else ["chat_id"]) ++
  (if truthyOptStr cd.message then [] else ["message"])

/-- parse_arguments proceeds (does not exit) exactly when no required
field is missing (source lines 329-332). -/
def validationPasses (cd : ConfigData) : Bool :=
  (missing_fields cd).isEmpty

/-- Recursive characterization of the group comprehension, used to
reason about concatenation and about the last group: the first m files
form the head group, followed by the groups of the remaining files. -/
def chunksRec (m : Nat) (l : List String) : List (List String) :=
  if h : l = [] ∨ m = 0 then []
  else
    l.take m :: chunksRec m (l.drop m)
termination_by l.length
decreasing_by
  simp only [not_or] at h
  have hl : 0 < l.length := List.length_pos.mpr h.1
  have hm : 0 < m := Nat.pos_of_ne_zero h.2
  simp only [List.length_drop]
  omega

/-- The send-file calls an all-success run makes: one per group in
order, carrying the group caption and the reply-to argument. -/
def expectedGroupCalls (cfg : BotConfig) (message : String)
    (totalGroups : Nat) : List (List String) → Nat → List Event
  | [], _ => []
  | g :: rest, groupIdx =>
    Event.clientSendFile cfg.chat_id g
        (groupCaption message groupIdx totalGroups) (replyToArg cfg)
      :: expectedGroupCalls cfg message totalGroups rest (groupIdx + 1)

/-- When every attempt fails, the attempt loop of send_message performs
exactly remaining transport calls with remaining - 1 retry sleeps in
between and ends by raising the error. -/
lemma sendMessageAttempts_all_fail (cfg : BotConfig) (msg : String)
    (op : Nat → Option String) (e : String) (hop : ∀ a, op a = some e) :
    ∀ remaining attempt, 1 ≤ remaining →
      (sendMessageAttempts cfg msg op attempt remaining).2 = Except.error e ∧
      clientCallCount (sendMessageAttempts cfg msg op attempt remaining).1
        = remaining ∧
      sleepCount (sendMessageAttempts cfg msg op attempt remaining).1
        = remaining - 1 := by
  intro remaining
  induction remaining with
  | zero => intro attempt h; omega
  | succ r ih =>
    intro attempt _
    by_cases hr : r = 0
    · subst hr
      simp [sendMessageAttempts, hop, clientCallCount, sleepCount]
    · obtain ⟨h2, h3, h4⟩ := ih (attempt + 1) (Nat.one_le_iff_ne_zero.mpr hr)
      simp only [sendMessageAttempts, hop, if_neg hr, clientCallCount,
        sleepCount, List.countP_cons] at h2 h3 h4 ⊢
      refine ⟨h2, ?_, ?_⟩
      · simp [h3]
      · simp [h4]; omega

/-- When the first j attempts from the given attempt number fail and the
next one succeeds (with j + 1 within the attempt budget), the loop
performs exactly j + 1 transport calls with j retry sleeps and returns
normally. -/
lemma sendMessageAttempts_success_at (cfg : BotConfig) (msg : String)
    (op : Nat → Option String) (e : String) :
    ∀ j remaining attempt, j < remaining →
      (∀ a, attempt ≤ a → a < attempt + j → op a = some e) →
      op (attempt + j) = none →
      (sendMessageAttempts cfg msg op attempt remaining).2 = Except.ok () ∧
      clientCallCount (sendMessageAttempts cfg msg op attempt remaining).1
        = j + 1 ∧
      sleepCount (sendMessageAttempts cfg msg op attempt remaining).1
        = j := by
  intro j
  induction j with
  | zero =>
    intro remaining attempt hlt hfail hok
    cases remaining with
    | zero => omega
    | succ r =>
      have hnone : op attempt = none := by simpa using hok
      simp [sendMessageAttempts, hnone, clientCallCount, sleepCount]
  | succ j ih =>
    intro remaining attempt hlt hfail hok
    cases remaining with
    | zero => omega
    | succ r =>
      have hfa : op attempt = some e := by
        exact hfail attempt (le_refl _) (by omega)
      have hr : r ≠ 0 := by omega
      obtain ⟨h2, h3, h4⟩ := ih r (attempt + 1) (by omega)
        (fun a ha1 ha2 => hfail a (by omega) (by omega))
        (by have : attempt + 1 + j = attempt + (j + 1) := by omega
            rw [this]; exact hok)
      simp only [sendMessageAttempts, hfa, if_neg hr, clientCallCount,
        sleepCount, List.countP_cons] at h2 h3 h4 ⊢
      refine ⟨h2, ?_, ?_⟩
      · simp [h3]
      · simp [h4]

/-- C2 counterexample: with maxAttempts = 2 and a unit whose operation
fails on every attempt, send_message does not return normally carrying
an outcome value; the last transport error escapes to the caller as a
raised exception, modelled by Except.error. -/
theorem C2_counterexample :
    (send_message (mkCfg 7 none 10 2 5 false) "hi" true
        (fun _ => some "boom")).2 = Except.error "boom" ∧
    (send_message (mkCfg 7 none 10 2 5 false) "hi" true
        (fun _ => some "boom")).2 ≠ Except.ok () := by
  refine ⟨rfl, ?_⟩
  intro hcon
  rw [show (send_message (mkCfg 7 none 10 2 5 false) "hi" true
      (fun _ => some "boom")).2 = Except.error "boom" from rfl] at hcon
  exact Except.noConfusion hcon

/-- C2 (amended): when every attempt of a unit fails, send_message makes
exactly retry_attempts transport calls and then lets the last transport
error escape as a raised exception (Except.error) to the caller, rather
than returning a Failed outcome as ordinary data. -/
theorem C2_final_failure_raises (cfg : BotConfig) (msg : String)
    (op : Nat → Option String) (e : String)
    (hdry : cfg.dry_run = false) (hN : 1 ≤ cfg.retry_attempts)
    (hop : ∀ a, op a = some e) :
    (send_message cfg msg true op).2 = Except.error e ∧
    clientCallCount (send_message cfg msg true op).1 = cfg.retry_attempts := by
  have h := sendMessageAttempts_all_fail cfg msg op e hop cfg.retry_attempts 1 hN
  constructor
  · simpa [send_message, hdry] using h.1
  · simpa [send_message, hdry] using h.2.1

/-- C2 witness: a concrete always-failing unit with two attempts. -/
theorem C2_final_failure_raises_witness :
    (send_message (mkCfg 7 none 10 2 5 false) "hi" true
        (fun _ => some "boom")).2 = Except.error "boom" ∧
    clientCallCount (send_message (mkCfg 7 none 10 2 5 false) "hi" true
        (fun _ => some "boom")).1 = 2 :=
  C2_final_failure_raises _ "hi" _ "boom" rfl (by decide) (fun _ => rfl)

/-- C3 counterexample: with maxAttempts = 1 and a failing operation the
result of the unit is not a normal return carrying a Failed value: the
send raises (Except.error), so the claimed returned Failed outcome with
attemptsMade = N does not exist. -/
theorem C3_counterexample :
    (send_message (mkCfg 3 none 10 1 4 false) "x" true
        (fun _ => some "err")).2 = Except.error "err" ∧
    (send_message (mkCfg 3 none 10 1 4 false) "x" true
        (fun _ => some "err")).2 ≠ Except.ok () := by
  refine ⟨rfl, ?_⟩
  intro hcon
  rw [show (send_message (mkCfg 3 none 10 1 4 false) "x" true
      (fun _ => some "err")).2 = Except.error "err" from rfl] at hcon
  exact Except.noConfusion hcon

/-- C3 (amended): with maxAttempts N ≥ 1, an operation failing on every
attempt leads to exactly N transport calls with N - 1 retry-delay sleeps
between consecutive attempts, after which the last error is raised
(instead of a Failed value being returned); an operation first
succeeding at attempt k ≤ N leads to exactly k transport calls with
k - 1 sleeps and an immediate normal return. -/
theorem C3_attempt_counts (cfg : BotConfig) (msg : String)
    (op : Nat → Option String) (e : String) (k : Nat)
    (hdry : cfg.dry_run = false) (hN : 1 ≤ cfg.retry_attempts) :
    ((∀ a, op a = some e) →
      (send_message cfg msg true op).2 = Except.error e ∧
      clientCallCount (send_message cfg msg true op).1 = cfg.retry_attempts ∧
      sleepCount (send_message cfg msg true op).1 = cfg.retry_attempts - 1) ∧
    (1 ≤ k → k ≤ cfg.retry_attempts →
      (∀ a, 1 ≤ a → a < k → op a = some e) → op k = none →
      (send_message cfg msg true op).2 = Except.ok () ∧
      clientCallCount (send_message cfg msg true op).1 = k ∧
      sleepCount (send_message cfg msg true op).1 = k - 1) := by
  constructor
  · intro hop
    have h := sendMessageAttempts_all_fail cfg msg op e hop
      cfg.retry_attempts 1 hN
    refine ⟨?_, ?_, ?_⟩
    · simpa [send_message, hdry] using h.1
    · simpa [send_message, hdry] using h.2.1
    · simpa [send_message, hdry] using h.2.2
  · intro hk1 hkN hfail hok
    have hkk : 1 + (k - 1) = k := by omega
    have h := sendMessageAttempts_success_at cfg msg op e (k - 1)
      cfg.retry_attempts 1 (by omega)
      (fun a ha1 ha2 => hfail a ha1 (by omega))
      (by rw [hkk]; exact hok)
    have h2 := h.2.1
    rw [show k - 1 + 1 = k by omega] at h2
    refine ⟨?_, ?_, ?_⟩
    · simpa [send_message, hdry] using h.1
    · simpa [send_message, hdry] using h2
    · simpa [send_message, hdry] using h.2.2

/-- C3 witness: both branches at concrete inputs: maxAttempts 3 with an
always-failing operation, and an operation succeeding at attempt 2. -/
theorem C3_attempt_counts_witness :
    ((send_message (mkCfg 9 none 10 3 5 false) "hi" true
        (fun _ => some "err")).2 = Except.error "err" ∧
      clientCallCount (send_message (mkCfg 9 none 10 3 5 false) "hi" true
        (fun _ => some "err")).1 = 3 ∧
      sleepCount (send_message (mkCfg 9 none 10 3 5 false) "hi" true
        (fun _ => some "err")).1 = 2) ∧
    ((send_message (mkCfg 9 none 10 3 5 false) "hi" true
        (fun a => if a < 2 then some "err" else none)).2 = Except.ok () ∧
      clientCallCount (send_message (mkCfg 9 none 10 3 5 false) "hi" true
        (fun a => if a < 2 then some "err" else none)).1 = 2 ∧
      sleepCount (send_message (mkCfg 9 none 10 3 5 false) "hi" true
        (fun a => if a < 2 then some "err" else none)).1 = 1) := by
  constructor
  · exact (C3_attempt_counts _ "hi" _ "err" 1 rfl (by decide)).1
      (fun _ => rfl)
  · exact (C3_attempt_counts _ "hi" _ "err" 2 rfl (by decide)).2
      (by decide) (by decide)
      (fun a h1 h2 => by
        have ha : a = 1 := by omega
        subst ha; rfl)
      rfl

/-- C5 counterexample: a configuration whose required fields are all
present and truthy but whose retry value is 0 passes the required-field
validation, and send_message under retry_attempts = 0 performs zero
attempts and returns normally with an empty trace: the system neither
fails fast nor refuses to silently skip the unit. -/
theorem C5_counterexample :
    validationPasses
      (mkCd (some "a") (some "h") (some "t") (some 5) (some "m")
        (some 0)) = true ∧
    send_message (mkCfg 5 none 10 0 5 false) "hello" true
      (fun _ => some "err") = ([], Except.ok ()) := by
  exact ⟨rfl, rfl⟩

/-- C5 (amended): the required-field validation of parse_arguments never
reads the retry field, so maxAttempts = 0 is not rejected; under
retry_attempts = 0 the attempt loop of send_message runs zero times and
the unit is silently skipped: no transport call, no error, a normal
return with an empty trace. -/
theorem C5_zero_attempts_not_validated (cd : ConfigData) (r : Option Nat)
    (cfg : BotConfig) (msg : String) (op : Nat → Option String)
    (hdry : cfg.dry_run = false) (hz : cfg.retry_attempts = 0) :
    missing_fields { cd with retry := r } = missing_fields cd ∧
    send_message cfg msg true op = ([], Except.ok ()) := by
  constructor
  · rfl
  · simp [send_message, hdry, hz, sendMessageAttempts]

/-- Arithmetic helper: the group count of the rest of the list after
removing one group equals the group count computed on the shorter
list. -/
lemma groupCount_tail (len m : Nat) (hm : 1 ≤ m) (hlen : 1 ≤ len) :
    (len - m + m - 1) / m = (len - 1) / m := by
  by_cases hlm : m ≤ len
  · congr 1
    omega
  · have h1 : len - m = 0 := by omega
    rw [h1]
    rw [Nat.div_eq_of_lt (by omega), Nat.div_eq_of_lt (by omega)]

/-- The range-comprehension form of the grouping agrees with its
recursive characterization. -/
lemma file_groups_eq_chunksRec (m : Nat) (hm : 1 ≤ m) :
    ∀ n (l : List String), l.length ≤ n →
      file_groups l m = Except.ok (chunksRec m l) := by
  intro n
  induction n with
  | zero =>
    intro l hl
    have hnil : l = [] := List.length_eq_zero.mp (Nat.le_zero.mp hl)
    subst hnil
    rw [chunksRec]
    simp [file_groups, show ¬ m = 0 by omega, Nat.div_eq_of_lt
      (show m - 1 < m by omega)]
  | succ n ih =>
    intro l hl
    by_cases hlne : l = []
    · subst hlne
      rw [chunksRec]
      simp [file_groups, show ¬ m = 0 by omega, Nat.div_eq_of_lt
        (show m - 1 < m by omega)]
    · have hlen : 1 ≤ l.length := by
        have := List.length_pos.mpr hlne
        omega
      have hng : (l.length + m - 1) / m = (l.length - 1) / m + 1 := by
        rw [show l.length + m - 1 = (l.length - 1) + m by omega,
          Nat.add_div_right _ (by omega : 0 < m)]
      have hdroplen : (l.drop m).length ≤ n := by
        rw [List.length_drop]
        omega
      have ihd := ih (l.drop m) hdroplen
      rw [file_groups, if_neg (show ¬ m = 0 by omega)] at ihd ⊢
      rw [chunksRec, dif_neg (show ¬ (l = [] ∨ m = 0) by
        push_neg
        exact ⟨hlne, by omega⟩)]
      rw [hng, List.range_succ_eq_map, List.map_cons]
      have hok := Except.ok.inj ihd
      rw [List.length_drop] at hok
      rw [groupCount_tail l.length m hm hlen] at hok
      refine congrArg Except.ok ?_
      refine List.cons_eq_cons.mpr ⟨by simp, ?_⟩
      rw [← hok, List.map_map]
      refine List.map_congr_left ?_
      intro j hj
      simp only [Function.comp]
      rw [List.drop_drop]
      congr 2
      rw [Nat.succ_mul, Nat.mul_comm]
      omega

/-- Concatenating the groups of the recursive grouping reproduces the
input list. -/
lemma chunksRec_flatten (m : Nat) (hm : 1 ≤ m) :
    ∀ n (l : List String), l.length ≤ n → (chunksRec m l).flatten = l := by
  intro n
  induction n with
  | zero =>
    intro l hl
    have hnil : l = [] := List.length_eq_zero.mp (Nat.le_zero.mp hl)
    subst hnil
    rw [chunksRec]
    simp
  | succ n ih =>
    intro l hl
    by_cases hlne : l = []
    · subst hlne
      rw [chunksRec]
      simp
    · rw [chunksRec, dif_neg (show ¬ (l = [] ∨ m = 0) by
        push_neg
        exact ⟨hlne, by omega⟩)]
      have hlen : 1 ≤ l.length := by
        have := List.length_pos.mpr hlne
        omega
      rw [List.flatten_cons, ih (l.drop m) (by rw [List.length_drop]; omega)]
      exact List.take_append_drop m l

/-- A nonempty list has a nonempty recursive grouping. -/
lemma chunksRec_ne_nil (m : Nat) (l : List String) (hm : 1 ≤ m)
    (hl : l ≠ []) : chunksRec m l ≠ [] := by
  rw [chunksRec, dif_neg (show ¬ (l = [] ∨ m = 0) by
    push_neg
    exact ⟨hl, by omega⟩)]
  exact List.cons_ne_nil _ _

/-- The last group of the recursive grouping has size len mod m, or m
when that remainder is zero. -/
lemma chunksRec_getLast (m : Nat) (hm : 1 ≤ m) :
    ∀ n (l : List String), l.length ≤ n → l ≠ [] →
      Option.map List.length (chunksRec m l).getLast?
        = some (if l.length % m = 0 then m else l.length % m) := by
  intro n
  induction n with
  | zero =>
    intro l hl hne
    have hnil : l = [] := List.length_eq_zero.mp (Nat.le_zero.mp hl)
    exact absurd hnil hne
  | succ n ih =>
    intro l hl hne
    have hlen : 1 ≤ l.length := by
      have := List.length_pos.mpr hne
      omega
    rw [chunksRec, dif_neg (show ¬ (l = [] ∨ m = 0) by
      push_neg
      exact ⟨hne, by omega⟩)]
    by_cases hrest : l.drop m = []
    · have hlm : l.length ≤ m := List.drop_eq_nil_iff.mp hrest
      rw [chunksRec, dif_pos (Or.inl hrest)]
      have hval : (if l.length % m = 0 then m else l.length % m)
          = l.length := by
        by_cases heq : l.length = m
        · rw [heq, Nat.mod_self, if_pos rfl]
        · have hlt : l.length < m := by omega
          rw [Nat.mod_eq_of_lt hlt, if_neg (by omega)]
      have hmin : m ⊓ l.length = l.length := inf_eq_right.mpr hlm
      rw [hval]
      simp [List.length_take, hmin]
    · have hlm : m < l.length := by
        have := List.drop_eq_nil_iff.not.mp (by exact hrest)
        omega
      obtain ⟨g0, rest0, hsplit⟩ := List.exists_cons_of_ne_nil
        (chunksRec_ne_nil m (l.drop m) hm hrest)
      have ihd := ih (l.drop m) (by rw [List.length_drop]; omega) hrest
      rw [hsplit, List.getLast?_cons_cons]
      rw [hsplit] at ihd
      rw [ihd]
      rw [List.length_drop]
      rw [show l.length - m = l.length - m by rfl]
      have hmod : (l.length - m) % m = l.length % m :=
        (Nat.mod_eq_sub_mod (by omega)).symm
      rw [hmod]

/-- C4: for every nonempty file list and maxGroupSize m at least 1, the
planned groups form a contiguous order-preserving partition: their
concatenation reproduces the input, each group has between 1 and m
files, the 0-based group k is the slice of the input from k*m of length
at most m, and the last group has size len mod m unless that is 0, in
which case it has size m. -/
theorem C4_partition (files : List String) (m : Nat)
    (groups : List (List String)) (hne : files ≠ []) (hm : 1 ≤ m)
    (hg : file_groups files m = Except.ok groups) :
    groups.flatten = files ∧
    (∀ g ∈ groups, 1 ≤ g.length ∧ g.length ≤ m) ∧
    (∀ k (hk : k < groups.length),
      groups.get ⟨k, hk⟩ = (files.drop (k * m)).take m) ∧
    Option.map List.length groups.getLast?
      = some (if files.length % m = 0 then m else files.length % m) := by
  have hchunks := file_groups_eq_chunksRec m hm files.length files (le_refl _)
  have hgroups : groups = chunksRec m files := by
    rw [hg] at hchunks
    exact Except.ok.inj hchunks
  have hrange : groups = (List.range ((files.length + m - 1) / m)).map
      (fun k => (files.drop (k * m)).take m) := by
    rw [file_groups, if_neg (show ¬ m = 0 by omega)] at hg
    exact (Except.ok.inj hg).symm
  refine ⟨?_, ?_, ?_, ?_⟩
  · rw [hgroups]
    exact chunksRec_flatten m hm files.length files (le_refl _)
  · intro g hgmem
    rw [hrange] at hgmem
    obtain ⟨k, hk, hgeq⟩ := List.mem_map.mp hgmem
    have hkr2 : k < (files.length + m - 1) / m := List.mem_range.mp hk
    have hkm : k * m < files.length := by
      have hk1 : k ≤ (files.length + m - 1) / m - 1 := by omega
      have hlen : 1 ≤ files.length := by
        have := List.length_pos.mpr hne
        omega
      have hng : (files.length + m - 1) / m = (files.length - 1) / m + 1 := by
        rw [show files.length + m - 1 = (files.length - 1) + m by omega,
          Nat.add_div_right _ (by omega : 0 < m)]
      have hk2 : k ≤ (files.length - 1) / m := by omega
      have := Nat.mul_le_mul_right m hk2
      have hdm := Nat.div_mul_le_self (files.length - 1) m
      omega
    constructor
    · rw [← hgeq, List.length_take, List.length_drop]
      omega
    · rw [← hgeq, List.length_take]
      omega
  · intro k hk
    subst hrange
    rw [List.get_eq_getElem]
    simp
  · rw [hgroups]
    exact chunksRec_getLast m hm files.length files (le_refl _) hne

/-- C4 witness: five files with maxGroupSize 2 partition into groups of
sizes 2, 2, 1; concatenation reproduces the input and the last group
has size 5 mod 2 = 1. -/
theorem C4_partition_witness :
    file_groups ["a", "b", "c", "d", "e"] 2
      = Except.ok [["a", "b"], ["c", "d"], ["e"]] ∧
    ([["a", "b"], ["c", "d"], ["e"]] : List (List String)).flatten
      = ["a", "b", "c", "d", "e"] ∧
    (1 ≤ (["e"] : List String).length ∧ (["e"] : List String).length ≤ 2) ∧
    Option.map List.length
      ([["a", "b"], ["c", "d"], ["e"]] : List (List String)).getLast?
      = some 1 := by
  have h := C4_partition ["a", "b", "c", "d", "e"] 2
    [["a", "b"], ["c", "d"], ["e"]] (by decide) (by decide) rfl
  refine ⟨rfl, h.1, h.2.1 ["e"] (by decide), ?_⟩
  have h4 := h.2.2.2
  simpa using h4

/-- When every attempt for a group fails, its attempt loop makes
exactly remaining transport calls, all for that group's file list, and
ends by raising the error. -/
lemma sendFileGroupAttempts_all_fail (cfg : BotConfig) (g : List String)
    (caption : String) (op : Nat → Nat → Option String) (gi total : Nat)
    (e : String) (hop : ∀ a, op gi a = some e) :
    ∀ remaining attempt, 1 ≤ remaining →
      (sendFileGroupAttempts cfg g caption op gi total attempt remaining).2
        = Except.error e ∧
      clientCallCount (sendFileGroupAttempts cfg g caption op gi total
        attempt remaining).1 = remaining ∧
      ∀ ev ∈ (sendFileGroupAttempts cfg g caption op gi total attempt
          remaining).1, ∀ ent f cap r,
        ev = Event.clientSendFile ent f cap r → f = g := by
  intro remaining
  induction remaining with
  | zero => intro attempt h; omega
  | succ rr ih =>
    intro attempt _
    by_cases hr : rr = 0
    · subst hr
      refine ⟨?_, ?_, ?_⟩
      · simp [sendFileGroupAttempts, hop]
      · simp [sendFileGroupAttempts, hop, clientCallCount]
      · intro ev hev ent f cap r heq
        subst heq
        simp [sendFileGroupAttempts, hop] at hev
        exact hev.2.1
    · obtain ⟨h2, h3, h4⟩ := ih (attempt + 1) (Nat.one_le_iff_ne_zero.mpr hr)
      refine ⟨?_, ?_, ?_⟩
      · simpa [sendFileGroupAttempts, hop, hr] using h2
      · simp only [clientCallCount] at h3
        simp [sendFileGroupAttempts, hop, hr, clientCallCount,
          List.countP_cons, h3]
      · intro ev hev ent f cap r heq
        subst heq
        simp only [sendFileGroupAttempts, hop, if_neg hr] at hev
        simp at hev
        rcases hev with h5 | h5
        · exact h5.2.1
        · exact h4 _ h5 ent f cap r rfl

/-- When the first attempt for a group succeeds, its attempt loop makes
one transport call, logs, and inserts the pacing sleep exactly when the
group is not the last. -/
lemma sendFileGroupAttempts_first_success (cfg : BotConfig)
    (g : List String) (caption : String) (op : Nat → Nat → Option String)
    (gi total rr : Nat) (hop : op gi 1 = none) :
    sendFileGroupAttempts cfg g caption op gi total 1 (rr + 1)
      = (Event.clientSendFile cfg.chat_id g caption (replyToArg cfg)
          :: Event.logInformation ("File group " ++ toString gi ++ "/"
            ++ toString total ++ " sent successfully")
          :: (if gi < total then [Event.sleep 1] else []),
        Except.ok ()) := by
  simp [sendFileGroupAttempts, hop]

/-- One step of the group loop when the current group returns
normally. -/
lemma sendFilesGroups_cons_ok (cfg : BotConfig) (msg : String)
    (retry : Bool) (op : Nat → Nat → Option String) (total : Nat)
    (g : List String) (rest : List (List String)) (groupIdx : Nat)
    (tr : List Event)
    (hcur : sendFileGroupAttempts cfg g (groupCaption msg groupIdx total)
        op groupIdx total 1 (if retry then cfg.retry_attempts else 1)
      = (tr, Except.ok ())) :
    sendFilesGroups cfg msg retry op total (g :: rest) groupIdx
      = (tr ++ (sendFilesGroups cfg msg retry op total rest
          (groupIdx + 1)).1,
        (sendFilesGroups cfg msg retry op total rest (groupIdx + 1)).2) := by
  simp [sendFilesGroups, hcur]

/-- One step of the group loop when the current group raises. -/
lemma sendFilesGroups_cons_error (cfg : BotConfig) (msg : String)
    (retry : Bool) (op : Nat → Nat → Option String) (total : Nat)
    (g : List String) (rest : List (List String)) (groupIdx : Nat)
    (tr : List Event) (e : String)
    (hcur : sendFileGroupAttempts cfg g (groupCaption msg groupIdx total)
        op groupIdx total 1 (if retry then cfg.retry_attempts else 1)
      = (tr, Except.error e)) :
    sendFilesGroups cfg msg retry op total (g :: rest) groupIdx
      = (tr, Except.error e) := by
  simp [sendFilesGroups, hcur]

/-- When the first group fails on every attempt, the group loop raises
after exactly retry_attempts calls, all of them carrying the first
group's file list; later groups contribute nothing. -/
lemma sendFilesGroups_first_fail (cfg : BotConfig) (msg : String)
    (op : Nat → Nat → Option String) (total : Nat) (g : List String)
    (rest : List (List String)) (e : String)
    (hN : 1 ≤ cfg.retry_attempts) (hop : ∀ a, op 1 a = some e) :
    (sendFilesGroups cfg msg true op total (g :: rest) 1).2
      = Except.error e ∧
    clientCallCount (sendFilesGroups cfg msg true op total
      (g :: rest) 1).1 = cfg.retry_attempts ∧
    ∀ ev ∈ (sendFilesGroups cfg msg true op total (g :: rest) 1).1,
      ∀ ent f cap r, ev = Event.clientSendFile ent f cap r → f = g := by
  obtain ⟨hf1, hf2, hf3⟩ := sendFileGroupAttempts_all_fail cfg g
    (groupCaption msg 1 total) op 1 total e hop cfg.retry_attempts 1 hN
  have hcur : sendFileGroupAttempts cfg g (groupCaption msg 1 total) op 1
      total 1 (if (true : Bool) then cfg.retry_attempts else 1)
      = ((sendFileGroupAttempts cfg g (groupCaption msg 1 total) op 1 total
          1 cfg.retry_attempts).1, Except.error e) := by
    rw [if_pos rfl, ← hf1]
  rw [sendFilesGroups_cons_error cfg msg true op total g rest 1 _ e hcur]
  exact ⟨rfl, hf2, hf3⟩

/-- When every call succeeds, the group loop returns normally, makes
exactly the expected send-file calls in order, and sleeps once after
every group except the last. -/
lemma sendFilesGroups_all_success (cfg : BotConfig) (msg : String)
    (op : Nat → Nat → Option String) (total rr : Nat)
    (hret : cfg.retry_attempts = rr + 1) (hop : ∀ g a, op g a = none) :
    ∀ gs startIdx, startIdx + gs.length = total + 1 →
      (sendFilesGroups cfg msg true op total gs startIdx).2
        = Except.ok () ∧
      sendFileEvents (sendFilesGroups cfg msg true op total gs startIdx).1
        = expectedGroupCalls cfg msg total gs startIdx ∧
      sleepCount (sendFilesGroups cfg msg true op total gs startIdx).1
        = gs.length - 1 := by
  intro gs
  induction gs with
  | nil =>
    intro startIdx h
    simp [sendFilesGroups, sendFileEvents, expectedGroupCalls, sleepCount]
  | cons g rest ih =>
    intro startIdx h
    have hlen : startIdx + (rest.length + 1) = total + 1 := by simpa using h
    obtain ⟨ih1, ih2, ih3⟩ := ih (startIdx + 1) (by omega)
    have hcur : sendFileGroupAttempts cfg g
        (groupCaption msg startIdx total) op startIdx total 1
        (if (true : Bool) then cfg.retry_attempts else 1)
        = (Event.clientSendFile cfg.chat_id g
              (groupCaption msg startIdx total) (replyToArg cfg)
            :: Event.logInformation ("File group " ++ toString startIdx
              ++ "/" ++ toString total ++ " sent successfully")
            :: (if startIdx < total then [Event.sleep 1] else []),
          Except.ok ()) := by
      rw [if_pos rfl, hret]
      exact sendFileGroupAttempts_first_success cfg g _ op startIdx total rr
        (hop _ _)
    rw [sendFilesGroups_cons_ok cfg msg true op total g rest startIdx _ hcur]
    refine ⟨ih1, ?_, ?_⟩
    · simp only [sendFileEvents] at ih2 ⊢
      by_cases hlt : startIdx < total <;>
        simp [List.filter_append, isSendFileEvent, hlt, expectedGroupCalls,
          ih2]
    · simp only [sleepCount] at ih3 ⊢
      by_cases hlt : startIdx < total
      · simp only [List.countP_append, List.countP_cons, ih3]
        simp [hlt]
        omega
      · simp only [List.countP_append, List.countP_cons, ih3]
        simp [hlt]
        omega

/-- C1 counterexample: two planned groups with maxGroupSize 1; group 1
fails all three attempts, group 2 would succeed, yet no send attempt is
ever made for group 2 (its file list "b" appears in no transport call)
and the run ends with the raised error. -/
theorem C1_counterexample :
    file_groups ["a", "b"] 1 = Except.ok [["a"], ["b"]] ∧
    (send_files (mkCfg 7 none 1 3 5 false) ["a", "b"] "m" true
      (fun g _ => if g = 1 then some "boom" else none)).2
      = Except.error "boom" ∧
    fileCallCountFor (send_files (mkCfg 7 none 1 3 5 false) ["a", "b"] "m"
      true (fun g _ => if g = 1 then some "boom" else none)).1 ["b"]
      = 0 := by
  exact ⟨rfl, rfl, rfl⟩

/-- C1 (amended): when the first group exhausts its whole retry budget,
send_files raises the last error and aborts the run: exactly
retry_attempts transport calls are made, each of them for the first
group's file list, and no subsequent group is ever attempted. -/
theorem C1_failed_group_aborts_run (cfg : BotConfig) (msg : String)
    (op : Nat → Nat → Option String) (files : List String) (e : String)
    (hdry : cfg.dry_run = false) (hne : files ≠ [])
    (hm : 1 ≤ cfg.max_files_per_group) (hN : 1 ≤ cfg.retry_attempts)
    (hop : ∀ a, op 1 a = some e) :
    (send_files cfg files msg true op).2 = Except.error e ∧
    clientCallCount (send_files cfg files msg true op).1
      = cfg.retry_attempts ∧
    ∀ ev ∈ (send_files cfg files msg true op).1, ∀ ent f cap r,
      ev = Event.clientSendFile ent f cap r →
        f = files.take cfg.max_files_per_group := by
  have hfne : files.isEmpty = false := by
    cases files
    · exact absurd rfl hne
    · rfl
  have hchunks := file_groups_eq_chunksRec cfg.max_files_per_group hm
    files.length files (le_refl _)
  have hsplit : chunksRec cfg.max_files_per_group files
      = files.take cfg.max_files_per_group
        :: chunksRec cfg.max_files_per_group
          (files.drop cfg.max_files_per_group) := by
    rw [chunksRec, dif_neg (show ¬ (files = [] ∨ cfg.max_files_per_group = 0)
      by push_neg; exact ⟨hne, by omega⟩)]
  simp only [send_files, hfne, hdry, hchunks, Bool.false_eq_true, if_false]
  rw [hsplit]
  obtain ⟨hh1, hh2, hh3⟩ := sendFilesGroups_first_fail cfg msg op
    (files.take cfg.max_files_per_group
      :: chunksRec cfg.max_files_per_group
        (files.drop cfg.max_files_per_group)).length
    (files.take cfg.max_files_per_group)
    (chunksRec cfg.max_files_per_group
      (files.drop cfg.max_files_per_group)) e hN hop
  refine ⟨hh1, ?_, ?_⟩
  · simp only [List.length_cons] at hh2
    simp only [clientCallCount, List.countP_cons] at hh2 ⊢
    simp [hh2]
  · intro ev hev ent f cap r heq
    subst heq
    simp only [List.mem_cons] at hev
    rcases hev with h5 | h5
    · exact absurd h5 (by simp)
    · exact hh3 _ h5 ent f cap r rfl


/-- C1 witness: two groups of one file each with two always-failing
attempts for group 1: the run raises after exactly two calls. -/
theorem C1_failed_group_aborts_run_witness :
    (send_files (mkCfg 7 none 1 2 5 false) ["a", "b"] "m" true
      (fun _ _ => some "boom")).2 = Except.error "boom" ∧
    clientCallCount (send_files (mkCfg 7 none 1 2 5 false) ["a", "b"] "m"
      true (fun _ _ => some "boom")).1 = 2 := by
  have h := C1_failed_group_aborts_run (mkCfg 7 none 1 2 5 false) "m"
    (fun _ _ => some "boom") ["a", "b"] "boom" rfl (by decide) (by decide)
    (by decide) (fun _ => rfl)
  exact ⟨h.1, h.2.1⟩

/-- C6 counterexample: 23 files with maxGroupSize 10 would plan three
groups (sizes 10, 10, 3), but in dry-run mode send_files returns after
exactly two batch-level log events: no per-unit Success outcome is
produced for any of the three planned groups, and the grouping is not
even computed. -/
theorem C6_counterexample :
    Except.map (fun gs => List.map List.length gs)
        (file_groups ((List.range 23).map toString) 10)
      = Except.ok [10, 10, 3] ∧
    (send_files (mkCfg 7 none 10 3 5 true) ((List.range 23).map toString)
        "m" true (fun _ _ => none)).1
      = [Event.logInformation "DRY RUN: Would send 23 files to chat ID 7",
        Event.logInformation "Files: (names elided)"] ∧
    (send_files (mkCfg 7 none 10 3 5 true) ((List.range 23).map toString)
        "m" true (fun _ _ => none)).2 = Except.ok () := by
  exact ⟨rfl, rfl, rfl⟩

/-- C6 (amended): in dry-run mode neither send_message nor send_files
performs any transport call and both return normally; the dry-run path
emits a batch-level notice and synthesizes no per-unit outcome (see the
counterexample: the trace is two log lines for three planned groups). -/
theorem C6_dry_run_no_transport (cfg : BotConfig) (msg : String)
    (retry : Bool) (op : Nat → Option String) (files : List String)
    (opf : Nat → Nat → Option String) (hdry : cfg.dry_run = true) :
    clientCallCount (send_message cfg msg retry op).1 = 0 ∧
    (send_message cfg msg retry op).2 = Except.ok () ∧
    clientCallCount (send_files cfg files msg retry opf).1 = 0 ∧
    (send_files cfg files msg retry opf).2 = Except.ok () := by
  refine ⟨?_, ?_, ?_, ?_⟩
  · simp [send_message, hdry, clientCallCount]
  · simp [send_message, hdry]
  · by_cases hf : files.isEmpty <;>
      simp [send_files, hdry, hf, clientCallCount]
  · by_cases hf : files.isEmpty <;> simp [send_files, hdry, hf]

/-- C6 witness: a concrete dry-run configuration with two files. -/
theorem C6_dry_run_no_transport_witness :
    clientCallCount (send_message (mkCfg 7 none 10 3 5 true) "hi" true
      (fun _ => some "boom")).1 = 0 ∧
    (send_message (mkCfg 7 none 10 3 5 true) "hi" true
      (fun _ => some "boom")).2 = Except.ok () ∧
    clientCallCount (send_files (mkCfg 7 none 10 3 5 true) ["a", "b"] "hi"
      true (fun _ _ => some "boom")).1 = 0 ∧
    (send_files (mkCfg 7 none 10 3 5 true) ["a", "b"] "hi" true
      (fun _ _ => some "boom")).2 = Except.ok () :=
  C6_dry_run_no_transport _ "hi" true _ ["a", "b"] _ rfl

/-- C7 counterexample: two planned groups where group 1 exhausts its
single attempt: no pacing sleep is inserted anywhere (the failure
raises and aborts the run), although the claim requires one pacing
delay between the two consecutive groups regardless of failure. -/
theorem C7_counterexample :
    file_groups ["a", "b"] 1 = Except.ok [["a"], ["b"]] ∧
    sleepCount (send_files (mkCfg 7 none 1 1 5 false) ["a", "b"] "m" true
      (fun g _ => if g = 1 then some "e1" else none)).1 = 0 ∧
    (send_files (mkCfg 7 none 1 1 5 false) ["a", "b"] "m" true
      (fun g _ => if g = 1 then some "e1" else none)).2
      = Except.error "e1" := by
  exact ⟨rfl, rfl, rfl⟩

/-- C7 (amended): in a run where every group succeeds, exactly one
pacing sleep is inserted after each group except the last
(groups - 1 sleeps in total), and the send-file calls carry, in order,
the captions made of the message and the "(Group i/total)" suffix; the
pacing sleep is only inserted on the success path, a failed group
raising instead (see the counterexample). -/
theorem C7_pacing_and_captions (cfg : BotConfig) (msg : String)
    (op : Nat → Nat → Option String) (files : List String)
    (groups : List (List String)) (hdry : cfg.dry_run = false)
    (hne : files ≠ []) (hN : 1 ≤ cfg.retry_attempts)
    (hg : file_groups files cfg.max_files_per_group = Except.ok groups)
    (hop : ∀ g a, op g a = none) :
    (send_files cfg files msg true op).2 = Except.ok () ∧
    sleepCount (send_files cfg files msg true op).1 = groups.length - 1 ∧
    sendFileEvents (send_files cfg files msg true op).1
      = expectedGroupCalls cfg msg groups.length groups 1 := by
  have hfne : files.isEmpty = false := by
    cases files
    · exact absurd rfl hne
    · rfl
  obtain ⟨rr, hret⟩ : ∃ rr, cfg.retry_attempts = rr + 1 :=
    ⟨cfg.retry_attempts - 1, by omega⟩
  obtain ⟨h1, h2, h3⟩ := sendFilesGroups_all_success cfg msg op
    groups.length rr hret hop groups 1 (by omega)
  simp only [send_files, hfne, hdry, hg, Bool.false_eq_true, if_false]
  refine ⟨h1, ?_, ?_⟩
  · simpa [sleepCount, List.countP_cons] using h3
  · simpa [sendFileEvents, isSendFileEvent] using h2

/-- C7 witness: three files with maxGroupSize 2 form two groups; the
all-success run sleeps once and sends the two expected captioned
calls. -/
theorem C7_pacing_and_captions_witness :
    (send_files (mkCfg 7 none 2 3 5 false) ["a", "b", "c"] "m" true
      (fun _ _ => none)).2 = Except.ok () ∧
    sleepCount (send_files (mkCfg 7 none 2 3 5 false) ["a", "b", "c"] "m"
      true (fun _ _ => none)).1 = 1 ∧
    sendFileEvents (send_files (mkCfg 7 none 2 3 5 false) ["a", "b", "c"]
      "m" true (fun _ _ => none)).1
      = expectedGroupCalls (mkCfg 7 none 2 3 5 false) "m" 2
          [["a", "b"], ["c"]] 1 :=
  C7_pacing_and_captions (mkCfg 7 none 2 3 5 false) "m" (fun _ _ => none)
    ["a", "b", "c"] [["a", "b"], ["c"]] rfl (by decide) (by decide) rfl
    (fun _ _ => rfl)

/-- The message attempt loop reads the configuration only through the
chat id, the reply-to argument and the retry delay. -/
lemma sendMessageAttempts_congr (cfg cfg2 : BotConfig) (msg : String)
    (op : Nat → Option String)
    (h1 : cfg.chat_id = cfg2.chat_id)
    (h2 : replyToArg cfg = replyToArg cfg2)
    (h3 : cfg.retry_delay = cfg2.retry_delay) :
    ∀ remaining attempt,
      sendMessageAttempts cfg msg op attempt remaining
        = sendMessageAttempts cfg2 msg op attempt remaining := by
  intro remaining
  induction remaining with
  | zero => intro attempt; rfl
  | succ r ih =>
    intro attempt
    simp only [sendMessageAttempts, h1, h2, h3]
    cases hopa : op attempt with
    | none => rfl
    | some e =>
      by_cases hr : r = 0
      · subst hr
        rfl
      · simp [if_neg hr, ih (attempt + 1)]

/-- The group attempt loop reads the configuration only through the
chat id, the reply-to argument and the retry delay. -/
lemma sendFileGroupAttempts_congr (cfg cfg2 : BotConfig) (g : List String)
    (caption : String) (op : Nat → Nat → Option String) (gi total : Nat)
    (h1 : cfg.chat_id = cfg2.chat_id)
    (h2 : replyToArg cfg = replyToArg cfg2)
    (h3 : cfg.retry_delay = cfg2.retry_delay) :
    ∀ remaining attempt,
      sendFileGroupAttempts cfg g caption op gi total attempt remaining
        = sendFileGroupAttempts cfg2 g caption op gi total attempt
            remaining := by
  intro remaining
  induction remaining with
  | zero => intro attempt; rfl
  | succ r ih =>
    intro attempt
    simp only [sendFileGroupAttempts, h1, h2, h3]
    cases hopa : op gi attempt with
    | none => rfl
    | some e =>
      by_cases hr : r = 0
      · subst hr
        rfl
      · simp [if_neg hr, ih (attempt + 1)]

/-- The group loop reads the configuration only through the chat id,
the reply-to argument, the retry delay and the retry budget. -/
lemma sendFilesGroups_congr (cfg cfg2 : BotConfig) (msg : String)
    (retry : Bool) (op : Nat → Nat → Option String)
    (h1 : cfg.chat_id = cfg2.chat_id)
    (h2 : replyToArg cfg = replyToArg cfg2)
    (h3 : cfg.retry_delay = cfg2.retry_delay)
    (h4 : cfg.retry_attempts = cfg2.retry_attempts) :
    ∀ total gs groupIdx,
      sendFilesGroups cfg msg retry op total gs groupIdx
        = sendFilesGroups cfg2 msg retry op total gs groupIdx := by
  intro total gs
  induction gs with
  | nil => intro gi; rfl
  | cons g rest ih =>
    intro gi
    simp only [sendFilesGroups, h4,
      sendFileGroupAttempts_congr cfg cfg2 g (groupCaption msg gi total) op
        gi total h1 h2 h3, ih (gi + 1)]

/-- C8: a present topicId equal to 0 is treated exactly like an absent
topicId: the reply-to argument is omitted from every transport call and
both send_message and send_files behave identically to a configuration
with no topicId, because presence is tested by truthiness. -/
theorem C8_topic_zero_like_absent (cfg : BotConfig) (msg : String)
    (retry : Bool) (op : Nat → Option String) (files : List String)
    (opf : Nat → Nat → Option String) :
    replyToArg { cfg with topic_id := some 0 } = none ∧
    send_message { cfg with topic_id := some 0 } msg retry op
      = send_message { cfg with topic_id := none } msg retry op ∧
    send_files { cfg with topic_id := some 0 } files msg retry opf
      = send_files { cfg with topic_id := none } files msg retry opf := by
  have hrn : replyToArg { cfg with topic_id := some 0 } = none := by
    simp [replyToArg, truthyOptInt]
  have hr : replyToArg { cfg with topic_id := some 0 }
      = replyToArg { cfg with topic_id := none } := by
    simp [replyToArg, truthyOptInt]
  have hmsg := sendMessageAttempts_congr { cfg with topic_id := some 0 }
    { cfg with topic_id := none } msg op rfl hr rfl
  refine ⟨hrn, ?_, ?_⟩
  · simp only [send_message, hmsg]
  · by_cases hemp : files.isEmpty
    · simp [send_files, hemp]
    · by_cases hdry2 : cfg.dry_run = true
      · simp [send_files, hemp, hdry2]
      · cases hfg : file_groups files cfg.max_files_per_group with
        | error e => simp [send_files, hemp, hdry2, hfg]
        | ok groups =>
          have hgrp2 := sendFilesGroups_congr
            { cfg with topic_id := some 0, dry_run := false }
            { cfg with topic_id := none, dry_run := false }
            msg retry opf rfl (by simp [replyToArg, truthyOptInt]) rfl rfl
          simp [send_files, hemp, hdry2, hfg, hgrp2]

/-- C9: in real (non dry-run) mode, send_files with an empty file list
logs a warning and returns normally: no transport call, no raised
error, and the trace holds only the warning. -/
theorem C9_empty_files_noop (cfg : BotConfig) (msg : String) (retry : Bool)
    (op : Nat → Nat → Option String) (hdry : cfg.dry_run = false) :
    send_files cfg [] msg retry op
      = ([Event.logWarning "No files to send"], Except.ok ()) ∧
    clientCallCount (send_files cfg [] msg retry op).1 = 0 := by
  constructor
  · simp [send_files]
  · simp [send_files, clientCallCount]

/-- C9 witness: a concrete real-mode configuration with no files. -/
theorem C9_empty_files_noop_witness :
    send_files (mkCfg 7 none 10 3 5 false) [] "hello" true (fun _ _ => none)
      = ([Event.logWarning "No files to send"], Except.ok ()) ∧
    clientCallCount (send_files (mkCfg 7 none 10 3 5 false) [] "hello" true
      (fun _ _ => none)).1 = 0 :=
  C9_empty_files_noop _ "hello" true _ rfl

/-- C10: with a nonempty file list in real mode, max_files_per_group = 0
makes the grouping comprehension raise the range() step error before any
transport call or log line (the trace is empty and the result is the
raised error), while any maxGroupSize at least 1 never takes the error
branch of the grouping. -/
theorem C10_zero_group_size (cfg : BotConfig) (files : List String)
    (msg : String) (retry : Bool) (op : Nat → Nat → Option String)
    (hne : files ≠ []) (hdry : cfg.dry_run = false) :
    (cfg.max_files_per_group = 0 →
      send_files cfg files msg retry op
        = ([], Except.error "range() arg 3 must not be zero")) ∧
    (1 ≤ cfg.max_files_per_group →
      ∃ groups, file_groups files cfg.max_files_per_group
        = Except.ok groups) := by
  have hfne : files.isEmpty = false := by
    cases files
    · exact absurd rfl hne
    · rfl
  constructor
  · intro hz
    simp [send_files, hfne, hdry, file_groups, hz]
  · intro hm
    exact ⟨_, by rw [file_groups, if_neg (by omega)]⟩

/-- C10 witness: one file with group size 0 raises the range error with
an empty trace; with group size 10 the grouping succeeds. -/
theorem C10_zero_group_size_witness :
    send_files (mkCfg 7 none 0 3 5 false) ["a"] "m" true (fun _ _ => none)
      = ([], Except.error "range() arg 3 must not be zero") ∧
    (∃ groups, file_groups ["a"] 10 = Except.ok groups) := by
  constructor
  · exact (C10_zero_group_size (mkCfg 7 none 0 3 5 false) ["a"] "m" true
      (fun _ _ => none) (by decide) rfl).1 rfl
  · exact (C10_zero_group_size (mkCfg 7 none 10 3 5 false) ["a"] "m" true
      (fun _ _ => none) (by decide) rfl).2 (by decide)

/-- C5 witness: a concrete configuration with retry_attempts 0. -/
theorem C5_zero_attempts_not_validated_witness :
    missing_fields
        { mkCd (some "a") (some "h") (some "t") (some 5) (some "m") (some 0)
          with retry := some 7 }
      = missing_fields
        (mkCd (some "a") (some "h") (some "t") (some 5) (some "m")
          (some 0)) ∧
    send_message (mkCfg 5 none 10 0 5 false) "hello" true
      (fun _ => some "err") = ([], Except.ok ()) :=
  C5_zero_attempts_not_validated
    (mkCd (some "a") (some "h") (some "t") (some 5) (some "m") (some 0))
    (some 7) _ "hello" _ rfl rfl

end Telebot
